import Mathlib

/-!
Verification of the per-tensor-affine fake-quantization kernels
(`fake_quantize_per_tensor_affine_forward` / `..._backward`).

Tensors of 32-bit floats are modelled as `List ℚ`, with the floating-point
arithmetic of the per-element kernels idealized as exact rational arithmetic.
Machine-integer arithmetic on the parameters (`int64_t` values, and the
32-bit `int` arithmetic that computes the clamp bound) is modelled exactly.
Exceptions (`std::invalid_argument`, `std::length_error`) are modelled with
`Except`.
-/

namespace FakeQuant

/-- Error kinds thrown by the kernels: `std::invalid_argument` and
`std::length_error`, with their messages. -/
inductive KError where
  | invalidArgument (msg : String)
  | lengthError (msg : String)
deriving DecidableEq, Repr

/-- Rounding to the nearest integer with halfway cases away from zero,
the semantics of `std::round` used by both kernels. -/
def roundHalfAway (x : ℚ) : ℤ :=
  if 0 ≤ x then ⌊x + 1 / 2⌋ else ⌈x - 1 / 2⌉

/-- Two's-complement wraparound of an integer into the 32-bit range
`[-2^31, 2^31 - 1]`, the de-facto behaviour of overflowing `int`
arithmetic on the host. -/
def int32wrap (n : ℤ) : ℤ :=
  (n + 2 ^ 31) % 2 ^ 32 - 2 ^ 31

/-- The clamp bound `const float quant_max = (1 << num_bits) - 1;` of both
kernels. The literal `1` is a 32-bit `int`, so the computation happens in
32-bit integer arithmetic: the shift count is reduced modulo the operand
width and the arithmetic wraps around (the C++ standard leaves the
overflowing cases at `num_bits = 31` and `num_bits = 32` undefined; this is
the behaviour of host x86 code, and under the alternative shift semantics
that clamps the count, `num_bits = 32` would give `-1` instead of `0` —
either way not `2^32 - 1`). The conversion of the resulting `int` to
`float` is idealized as exact. -/
def quantMaxInt (num_bits : ℤ) : ℤ :=
  int32wrap (int32wrap (2 ^ (num_bits % 32).toNat) - 1)

/-- The clamp bound as the (idealized) floating-point value used in the
per-element kernels. -/
def quantMaxOf (num_bits : ℤ) : ℚ :=
  (quantMaxInt num_bits : ℚ)

/-- The per-element device lambda of the forward kernel:
`(fminf(quant_max, fmaxf(quant_min, round(x * inv_scale + zero_point))) - zero_point) * scale`
with `quant_min = 0` and `inv_scale = 1 / scale`. -/
def fakeQuantElem (scale : ℚ) (zero_point num_bits : ℤ) (x : ℚ) : ℚ :=
  (min (quantMaxOf num_bits)
      (max 0 ((roundHalfAway (x * (1 / scale) + zero_point) : ℤ) : ℚ))
    - zero_point) * scale

/-- The per-element device lambda of the backward kernel:
`Xq = round(x * inv_scale + zero_point); mask = float(Xq >= quant_min && Xq <= quant_max)`. -/
def backwardMaskElem (scale : ℚ) (zero_point num_bits : ℤ) (x : ℚ) : ℚ :=
  if 0 ≤ ((roundHalfAway (x * (1 / scale) + zero_point) : ℤ) : ℚ) ∧
      ((roundHalfAway (x * (1 / scale) + zero_point) : ℤ) : ℚ) ≤ quantMaxOf num_bits
  then 1 else 0

/-- `FakeQuantizePerTensorAffineOp_forward::operator()`: validation checks in
source order, then the delay passthrough, then the elementwise
quantize-dequantize pass. -/
def forward (X : List ℚ) (scale : ℚ) (zero_point : ℤ)
    (num_bits quant_delay iter : ℤ) : Except KError (List ℚ) :=
  if num_bits > 32 ∨ num_bits < 1 then
    .error (.invalidArgument "`num_bits` should be in the [1, 32] range.")
  else if zero_point < 0 then
    .error (.invalidArgument "`zero_point` must be a positive integer.")
  else if quant_delay < 0 then
    .error (.invalidArgument "`quant_delay` must be a positive integer.")
  else if quant_delay ≠ 0 ∧ iter < 0 then
    .error (.invalidArgument "`iter` must be >=0 for non-zero `quant_delay`")
  else if quant_delay > 0 ∧ iter ≤ quant_delay then
    .ok X
  else
    .ok (X.map (fakeQuantElem scale zero_point num_bits))

/-- `FakeQuantizePerTensorAffineOp_backward::operator()`: validation checks in
source order (parameter checks, then the two tensor checks, then the `iter`
check), then the delay passthrough, then `dX = mask * dY`. -/
def backward (X dY : List ℚ) (scale : ℚ) (zero_point : ℤ)
    (num_bits quant_delay iter : ℤ) : Except KError (List ℚ) :=
  if num_bits > 32 ∨ num_bits < 1 then
    .error (.invalidArgument "`num_bits` should be in the [1, 32] range.")
  else if zero_point < 0 then
    .error (.invalidArgument "`zero_point` must be a positive integer.")
  else if quant_delay < 0 then
    .error (.invalidArgument "`quant_delay` must be a positive integer.")
  else if X.length ≤ 0 then
    .error (.lengthError "`X` is empty")
  else if X.length ≠ dY.length then
    .error (.invalidArgument "`X` and `dY` are not the same size")
  else if quant_delay ≠ 0 ∧ iter < 0 then
    .error (.invalidArgument "`iter` must be >=0 for non-zero `quant_delay`")
  else if quant_delay > 0 ∧ iter ≤ quant_delay then
    .ok dY
  else
    .ok (List.zipWith (fun x dy => backwardMaskElem scale zero_point num_bits x * dy) X dY)

/-- Modelled from the spec: the forward per-element formula as the spec
states it, with clamp bound `quant_max = 2^num_bits - 1` (to be compared
with `fakeQuantElem`, which uses the clamp bound the code computes). -/
def specForwardElem (scale : ℚ) (zero_point num_bits : ℤ) (x : ℚ) : ℚ :=
  (min ((2 : ℚ) ^ num_bits.toNat - 1)
      (max 0 ((roundHalfAway (x * (1 / scale) + zero_point) : ℤ) : ℚ))
    - zero_point) * scale

/-- The parameter combinations that the shared scalar validation rejects
with `std::invalid_argument`. -/
def badParams (num_bits zero_point quant_delay iter : ℤ) : Prop :=
  num_bits < 1 ∨ num_bits > 32 ∨ zero_point < 0 ∨ quant_delay < 0 ∨
    (quant_delay ≠ 0 ∧ iter < 0)

instance (num_bits zero_point quant_delay iter : ℤ) :
    Decidable (badParams num_bits zero_point quant_delay iter) := by
  unfold badParams
  infer_instance

/-- Whether a kernel result is an `std::invalid_argument` failure. -/
def isInvalidArg : Except KError (List ℚ) → Bool
  | .error (.invalidArgument _) => true
  | _ => false

/-- Whether a kernel result is an `std::length_error` failure. -/
def isLenErr : Except KError (List ℚ) → Bool
  | .error (.lengthError _) => true
  | _ => false

/-- The returned tensor of a successful kernel call. -/
def okValues : Except KError (List ℚ) → List ℚ
  | .ok l => l
  | .error _ => []

/- Helper lemmas -/

lemma quantMaxInt_eq_pow (nb : ℤ) (h1 : 1 ≤ nb) (h2 : nb ≤ 31) :
    quantMaxInt nb = 2 ^ nb.toNat - 1 := by
  interval_cases nb <;> decide

lemma quantMaxInt_nonneg (nb : ℤ) (h1 : 1 ≤ nb) (h2 : nb ≤ 32) :
    0 ≤ quantMaxInt nb := by
  interval_cases nb <;> decide

lemma quantMaxInt_le_pow (nb : ℤ) (h1 : 1 ≤ nb) (h2 : nb ≤ 32) :
    quantMaxInt nb ≤ 2 ^ nb.toNat - 1 := by
  interval_cases nb <;> decide

lemma roundHalfAway_intCast (k : ℤ) : roundHalfAway (k : ℚ) = k := by
  unfold roundHalfAway
  split_ifs with h
  · rw [Int.floor_int_add]
    norm_num
  · rw [show ((k : ℚ) - 1 / 2) = (-(1 / 2 : ℚ)) + (k : ℚ) by ring, Int.ceil_add_int]
    norm_num

/-- The forward per-element kernel, with the clamp carried out on integers. -/
lemma fakeQuantElem_eq_int (scale : ℚ) (zp nb : ℤ) (x : ℚ) :
    fakeQuantElem scale zp nb x =
      ((min (quantMaxInt nb) (max 0 (roundHalfAway (x * (1 / scale) + zp))) : ℤ) - zp) * scale := by
  unfold fakeQuantElem quantMaxOf
  push_cast
  ring

lemma forward_eq_active (X : List ℚ) (scale : ℚ) (zp nb qd it : ℤ)
    (h1 : 1 ≤ nb) (h2 : nb ≤ 32) (hzp : 0 ≤ zp) (hqd : 0 ≤ qd)
    (hit : qd ≠ 0 → 0 ≤ it) (hact : qd = 0 ∨ qd < it) :
    forward X scale zp nb qd it = .ok (X.map (fakeQuantElem scale zp nb)) := by
  unfold forward
  rw [if_neg (by omega), if_neg (by omega), if_neg (by omega),
    if_neg (by rintro ⟨hq, hi⟩; exact absurd (hit hq) (by omega)),
    if_neg (by rintro ⟨hq, hi⟩; omega)]

lemma forward_eq_passthrough (X : List ℚ) (scale : ℚ) (zp nb qd it : ℤ)
    (h1 : 1 ≤ nb) (h2 : nb ≤ 32) (hzp : 0 ≤ zp)
    (hqd : 0 < qd) (hit : 0 ≤ it) (hle : it ≤ qd) :
    forward X scale zp nb qd it = .ok X := by
  unfold forward
  rw [if_neg (by omega), if_neg (by omega), if_neg (by omega),
    if_neg (by rintro ⟨hq, hi⟩; omega), if_pos ⟨hqd, hle⟩]

lemma backward_eq_active (X dY : List ℚ) (scale : ℚ) (zp nb qd it : ℤ)
    (h1 : 1 ≤ nb) (h2 : nb ≤ 32) (hzp : 0 ≤ zp) (hqd : 0 ≤ qd)
    (hlen : X.length = dY.length) (hne : X ≠ [])
    (hit : qd ≠ 0 → 0 ≤ it) (hact : qd = 0 ∨ qd < it) :
    backward X dY scale zp nb qd it =
      .ok (List.zipWith (fun x dy => backwardMaskElem scale zp nb x * dy) X dY) := by
  have hlen0 : X.length ≠ 0 := fun h => hne (List.length_eq_zero.mp h)
  unfold backward
  rw [if_neg (by omega), if_neg (by omega), if_neg (by omega),
    if_neg (by omega), if_neg (by omega),
    if_neg (by rintro ⟨hq, hi⟩; exact absurd (hit hq) (by omega)),
    if_neg (by rintro ⟨hq, hi⟩; omega)]

lemma backward_eq_passthrough (X dY : List ℚ) (scale : ℚ) (zp nb qd it : ℤ)
    (h1 : 1 ≤ nb) (h2 : nb ≤ 32) (hzp : 0 ≤ zp)
    (hlen : X.length = dY.length) (hne : X ≠ [])
    (hqd : 0 < qd) (hit : 0 ≤ it) (hle : it ≤ qd) :
    backward X dY scale zp nb qd it = .ok dY := by
  have hlen0 : X.length ≠ 0 := fun h => hne (List.length_eq_zero.mp h)
  unfold backward
  rw [if_neg (by omega), if_neg (by omega), if_neg (by omega),
    if_neg (by omega), if_neg (by omega),
    if_neg (by rintro ⟨hq, hi⟩; omega), if_pos ⟨hqd, hle⟩]

/-- For bit widths in `[1, 31]` the clamp bound the code computes agrees
with the spec's `2^num_bits - 1`, so the code's per-element kernel agrees
with the spec's formula. -/
lemma fakeQuantElem_eq_spec (scale : ℚ) (zp nb : ℤ) (h1 : 1 ≤ nb) (h2 : nb ≤ 31)
    (x : ℚ) : fakeQuantElem scale zp nb x = specForwardElem scale zp nb x := by
  unfold fakeQuantElem specForwardElem quantMaxOf
  rw [quantMaxInt_eq_pow nb h1 h2]
  push_cast
  ring_nf

/- Claim theorems -/

/-- Claim C1, counterexample: as stated the claim also covers `num_bits = 32`
(validation accepts it), but there the code clamps with `quant_max = 0`, not
`2^32 - 1`: on input `[1]` with `scale = 1`, `zero_point = 0`, the forward
kernel returns `[0]` while the claimed formula gives `1`. -/
theorem C1_counterexample :
    okValues (forward [(1 : ℚ)] 1 0 32 0 0) = [0] ∧
    specForwardElem 1 0 32 1 = 1 ∧ (0 : ℚ) ≠ 1 := by
  refine ⟨?_, ?_, by norm_num⟩
  · norm_num [forward, okValues, fakeQuantElem, roundHalfAway, quantMaxOf,
      show quantMaxInt 32 = 0 from by decide]
  · norm_num [specForwardElem, roundHalfAway, show ((32 : ℤ)).toNat = 32 from rfl]

/-- Claim C1 (amended to `num_bits ≤ 31`): every validated active-path call
to forward maps each input element `x` to
`(min(quant_max, max(quant_min, round(x * (1/scale) + zero_point))) - zero_point) * scale`
with `quant_min = 0`, `quant_max = 2^num_bits - 1`, and rounding to nearest,
half away from zero. -/
theorem C1_forward_formula (X : List ℚ) (scale : ℚ) (zp nb qd it : ℤ)
    (h1 : 1 ≤ nb) (h2 : nb ≤ 31) (hzp : 0 ≤ zp) (hqd : 0 ≤ qd)
    (hit : qd ≠ 0 → 0 ≤ it) (hact : qd = 0 ∨ qd < it) :
    forward X scale zp nb qd it = .ok (X.map (specForwardElem scale zp nb)) := by
  rw [forward_eq_active X scale zp nb qd it h1 (by omega) hzp hqd hit hact]
  rw [funext (fakeQuantElem_eq_spec scale zp nb h1 h2)]

/-- Witness for C1 at `X = [1/2]`, `scale = 1`, `zero_point = 0`,
`num_bits = 8`, `quant_delay = 0`, `iter = 0`. -/
theorem C1_forward_formula_witness :
    ((1 : ℤ) ≤ 8 ∧ (8 : ℤ) ≤ 31 ∧ (0 : ℤ) ≤ 0 ∧ ((0 : ℤ) = 0 ∨ (0 : ℤ) < 0)) ∧
    forward [(1 : ℚ) / 2] 1 0 8 0 0 = .ok ([(1 : ℚ) / 2].map (specForwardElem 1 0 8)) :=
  ⟨⟨by decide, by decide, le_refl 0, Or.inl rfl⟩,
   C1_forward_formula [(1 : ℚ) / 2] 1 0 8 0 0 (by decide) (by decide) (le_refl 0)
     (le_refl 0) (fun _ => le_refl 0) (Or.inl rfl)⟩

/-- Claim C3, code bug at `num_bits = 32`: the clamp bound is computed as
`(1 << num_bits) - 1` in 32-bit `int` arithmetic, which matches
`2^num_bits - 1` only up to `num_bits = 31`; at the accepted extreme
`num_bits = 32` it evaluates to `0` (the code's own comment promises the
range `[0, 2^bits - 1]`), so forward collapses every input to
`(0 - zero_point) * scale`: on `[2^32 - 1]` with `scale = 1`,
`zero_point = 0` it returns `[0]`. -/
theorem C3_quant_max_bound :
    quantMaxInt 8 = 255 ∧ quantMaxInt 31 = 2 ^ 31 - 1 ∧
    quantMaxInt 32 = 0 ∧ quantMaxInt 32 ≠ 2 ^ 32 - 1 ∧
    okValues (forward [(2 : ℚ) ^ 32 - 1] 1 0 32 0 0) = [0] := by
  refine ⟨by decide, by decide, by decide, by decide, ?_⟩
  norm_num [forward, okValues, fakeQuantElem, roundHalfAway, quantMaxOf,
    show quantMaxInt 32 = 0 from by decide]

/-- Claim C4: with `quant_delay > 0` and `iter ≤ quant_delay` (boundary
inclusive), forward returns an exact copy of `X` and backward an exact copy
of `dY`; with `iter > quant_delay` both take the full quantization path. -/
theorem C4_delay_passthrough (X dY : List ℚ) (scale : ℚ) (zp nb qd it : ℤ)
    (h1 : 1 ≤ nb) (h2 : nb ≤ 32) (hzp : 0 ≤ zp)
    (hlen : X.length = dY.length) (hne : X ≠ [])
    (hqd : 0 < qd) (hit : 0 ≤ it) :
    (it ≤ qd →
      forward X scale zp nb qd it = .ok X ∧
      backward X dY scale zp nb qd it = .ok dY) ∧
    (qd < it →
      forward X scale zp nb qd it = .ok (X.map (fakeQuantElem scale zp nb)) ∧
      backward X dY scale zp nb qd it =
        .ok (List.zipWith (fun x dy => backwardMaskElem scale zp nb x * dy) X dY)) := by
  constructor
  · intro hle
    exact ⟨forward_eq_passthrough X scale zp nb qd it h1 h2 hzp hqd hit hle,
      backward_eq_passthrough X dY scale zp nb qd it h1 h2 hzp hlen hne hqd hit hle⟩
  · intro hlt
    exact ⟨forward_eq_active X scale zp nb qd it h1 h2 hzp (by omega)
        (fun _ => hit) (Or.inr hlt),
      backward_eq_active X dY scale zp nb qd it h1 h2 hzp (by omega) hlen hne
        (fun _ => hit) (Or.inr hlt)⟩

/-- Witness for C4 at the boundary `quant_delay = 5`: `iter = 5` still passes
through, `iter = 6` quantizes. -/
theorem C4_delay_passthrough_witness :
    ((1 : ℤ) ≤ 8 ∧ (8 : ℤ) ≤ 32 ∧ [(1 : ℚ)].length = [(2 : ℚ)].length ∧
      [(1 : ℚ)] ≠ [] ∧ (0 : ℤ) < 5 ∧ (5 : ℤ) ≤ 5 ∧ (5 : ℤ) < 6) ∧
    (forward [(1 : ℚ)] 1 0 8 5 5 = .ok [(1 : ℚ)] ∧
      backward [(1 : ℚ)] [(2 : ℚ)] 1 0 8 5 5 = .ok [(2 : ℚ)]) ∧
    (forward [(1 : ℚ)] 1 0 8 5 6 = .ok ([(1 : ℚ)].map (fakeQuantElem 1 0 8)) ∧
      backward [(1 : ℚ)] [(2 : ℚ)] 1 0 8 5 6 =
        .ok (List.zipWith (fun x dy => backwardMaskElem 1 0 8 x * dy)
          [(1 : ℚ)] [(2 : ℚ)])) :=
  ⟨⟨by decide, by decide, rfl, by simp, by decide, by decide, by decide⟩,
   (C4_delay_passthrough [(1 : ℚ)] [(2 : ℚ)] 1 0 8 5 5 (by decide) (by decide)
      (le_refl 0) rfl (by simp) (by decide) (by decide)).1 (by decide),
   (C4_delay_passthrough [(1 : ℚ)] [(2 : ℚ)] 1 0 8 5 6 (by decide) (by decide)
      (le_refl 0) rfl (by simp) (by decide) (by decide)).2 (by decide)⟩

/-- Claim C10: with `quant_delay = 0` both kernels always take the active
quantization path, whatever `iter` is (negative included): the passthrough
branch requires `quant_delay > 0` and the `iter ≥ 0` check only applies when
`quant_delay ≠ 0`. -/
theorem C10_zero_delay_always_active (X dY : List ℚ) (scale : ℚ) (zp nb it : ℤ)
    (h1 : 1 ≤ nb) (h2 : nb ≤ 32) (hzp : 0 ≤ zp)
    (hlen : X.length = dY.length) (hne : X ≠ []) :
    forward X scale zp nb 0 it = .ok (X.map (fakeQuantElem scale zp nb)) ∧
    backward X dY scale zp nb 0 it =
      .ok (List.zipWith (fun x dy => backwardMaskElem scale zp nb x * dy) X dY) :=
  ⟨forward_eq_active X scale zp nb 0 it h1 h2 hzp le_rfl
      (fun h => absurd rfl h) (Or.inl rfl),
   backward_eq_active X dY scale zp nb 0 it h1 h2 hzp le_rfl hlen hne
      (fun h => absurd rfl h) (Or.inl rfl)⟩

/-- Witness for C10 with the negative step `iter = -7`. -/
theorem C10_zero_delay_always_active_witness :
    ((1 : ℤ) ≤ 8 ∧ (8 : ℤ) ≤ 32 ∧ (0 : ℤ) ≤ 0 ∧
      [(3 : ℚ)].length = [(1 : ℚ)].length ∧ [(3 : ℚ)] ≠ []) ∧
    (forward [(3 : ℚ)] 1 0 8 0 (-7) = .ok ([(3 : ℚ)].map (fakeQuantElem 1 0 8)) ∧
      backward [(3 : ℚ)] [(1 : ℚ)] 1 0 8 0 (-7) =
        .ok (List.zipWith (fun x dy => backwardMaskElem 1 0 8 x * dy)
          [(3 : ℚ)] [(1 : ℚ)])) :=
  ⟨⟨by decide, by decide, le_refl 0, rfl, by simp⟩,
   C10_zero_delay_always_active [(3 : ℚ)] [(1 : ℚ)] 1 0 8 (-7) (by decide)
     (by decide) (le_refl 0) rfl (by simp)⟩

/-- Claim C2: every validated active-path call to backward returns
`dX = mask ⊙ dY` where the mask is `1` exactly when the forward quantization
point `round(x * (1/scale) + zero_point)` lies in `[quant_min, quant_max]`
and `0` otherwise; in particular for `X = [-1000, 0, 1000]`, `scale = 1`,
`zero_point = 128`, `num_bits = 8` the mask is `[0, 1, 0]`. -/
theorem C2_backward_mask (X dY : List ℚ) (scale : ℚ) (zp nb qd it : ℤ)
    (h1 : 1 ≤ nb) (h2 : nb ≤ 32) (hzp : 0 ≤ zp) (hqd : 0 ≤ qd)
    (hlen : X.length = dY.length) (hne : X ≠ [])
    (hit : qd ≠ 0 → 0 ≤ it) (hact : qd = 0 ∨ qd < it) :
    backward X dY scale zp nb qd it =
      .ok (List.zipWith (fun x dy =>
        (if 0 ≤ ((roundHalfAway (x * (1 / scale) + zp) : ℤ) : ℚ) ∧
            ((roundHalfAway (x * (1 / scale) + zp) : ℤ) : ℚ) ≤ quantMaxOf nb
          then (1 : ℚ) else 0) * dy) X dY) ∧
    backward [(-1000 : ℚ), 0, 1000] [1, 1, 1] 1 128 8 0 0 = .ok [0, 1, 0] := by
  constructor
  · rw [backward_eq_active X dY scale zp nb qd it h1 h2 hzp hqd hlen hne hit hact]
    simp only [backwardMaskElem]
  · norm_num [backward, backwardMaskElem, roundHalfAway, quantMaxOf, Int.ceil_neg,
      show quantMaxInt 8 = 255 from by decide]

/-- Witness for C2 at `X = [-1000, 0, 1000]`, `dY = [1, 1, 1]`, `scale = 1`,
`zero_point = 128`, `num_bits = 8`, `quant_delay = 0`, `iter = 0`. -/
theorem C2_backward_mask_witness :
    ((1 : ℤ) ≤ 8 ∧ (8 : ℤ) ≤ 32 ∧ (0 : ℤ) ≤ 128 ∧
      [(-1000 : ℚ), 0, 1000].length = [(1 : ℚ), 1, 1].length ∧
      [(-1000 : ℚ), 0, 1000] ≠ [] ∧ ((0 : ℤ) = 0 ∨ (0 : ℤ) < 0)) ∧
    (backward [(-1000 : ℚ), 0, 1000] [1, 1, 1] 1 128 8 0 0 =
      .ok (List.zipWith (fun x dy =>
        (if 0 ≤ ((roundHalfAway (x * (1 / 1) + (128 : ℤ)) : ℤ) : ℚ) ∧
            ((roundHalfAway (x * (1 / 1) + (128 : ℤ)) : ℤ) : ℚ) ≤ quantMaxOf 8
          then (1 : ℚ) else 0) * dy) [(-1000 : ℚ), 0, 1000] [(1 : ℚ), 1, 1]) ∧
     backward [(-1000 : ℚ), 0, 1000] [1, 1, 1] 1 128 8 0 0 = .ok [0, 1, 0]) :=
  ⟨⟨by decide, by decide, by decide, rfl, by simp, Or.inl rfl⟩,
   C2_backward_mask [(-1000 : ℚ), 0, 1000] [(1 : ℚ), 1, 1] 1 128 8 0 0 (by decide)
     (by decide) (by decide) (le_refl 0) rfl (by simp) (fun _ => le_refl 0) (Or.inl rfl)⟩

/-- Claim C5: both kernels fail with `std::invalid_argument` exactly when
`num_bits < 1`, `num_bits > 32`, `zero_point < 0`, `quant_delay < 0`, or
`quant_delay ≠ 0 ∧ iter < 0` (for backward, given tensors that pass its two
tensor checks); for parameters satisfying none of these, no
parameter-validation error is raised. -/
theorem C5_validation_iff (X dY : List ℚ) (scale : ℚ) (zp nb qd it : ℤ)
    (hlen : X.length = dY.length) (hne : X ≠ []) :
    (isInvalidArg (forward X scale zp nb qd it) = true ↔ badParams nb zp qd it) ∧
    (isInvalidArg (backward X dY scale zp nb qd it) = true ↔ badParams nb zp qd it) := by
  have hlen0 : X.length ≠ 0 := fun h => hne (List.length_eq_zero.mp h)
  constructor
  · unfold forward badParams
    split_ifs with hA hB hC hD hE <;> simp [isInvalidArg] <;> omega
  · unfold backward badParams
    split_ifs with hA hB hC hD hE hF hG <;> simp [isInvalidArg] <;> omega

/-- Witness for C5 at the rejected `num_bits = 0` and at the accepted
default parameters. -/
theorem C5_validation_iff_witness :
    ([(1 : ℚ)].length = [(2 : ℚ)].length ∧ [(1 : ℚ)] ≠ []) ∧
    (isInvalidArg (forward [(1 : ℚ)] 1 0 0 0 0) = true ↔ badParams 0 0 0 0) ∧
    (isInvalidArg (backward [(1 : ℚ)] [(2 : ℚ)] 1 0 8 0 0) = true ↔ badParams 8 0 0 0) :=
  ⟨⟨rfl, by simp⟩,
   (C5_validation_iff [(1 : ℚ)] [(2 : ℚ)] 1 0 0 0 0 rfl (by simp)).1,
   (C5_validation_iff [(1 : ℚ)] [(2 : ℚ)] 1 0 8 0 0 rfl (by simp)).2⟩

/-- Claim C6: with scalar parameters that pass the earlier checks, backward
fails with `std::length_error` when `X` is empty, and with
`std::invalid_argument` when the element counts of `X` and `dY` differ (the
empty-`X` check coming first), both before any numeric work; forward never
raises `std::length_error` on any input. -/
theorem C6_backward_tensor_checks (X dY : List ℚ) (scale : ℚ) (zp nb qd it : ℤ)
    (h1 : 1 ≤ nb) (h2 : nb ≤ 32) (hzp : 0 ≤ zp) (hqd : 0 ≤ qd) :
    (X = [] →
      backward X dY scale zp nb qd it = .error (.lengthError "`X` is empty")) ∧
    (X ≠ [] → X.length ≠ dY.length →
      backward X dY scale zp nb qd it =
        .error (.invalidArgument "`X` and `dY` are not the same size")) ∧
    (∀ (X' : List ℚ) (scale' : ℚ) (zp' nb' qd' it' : ℤ),
      isLenErr (forward X' scale' zp' nb' qd' it') = false) := by
  refine ⟨?_, ?_, ?_⟩
  · intro hX
    subst hX
    unfold backward
    rw [if_neg (by omega), if_neg (by omega), if_neg (by omega), if_pos (by simp)]
  · intro hne hmis
    have hlen0 : X.length ≠ 0 := fun h => hne (List.length_eq_zero.mp h)
    unfold backward
    rw [if_neg (by omega), if_neg (by omega), if_neg (by omega),
      if_neg (by omega), if_pos hmis]
  · intro X' scale' zp' nb' qd' it'
    unfold forward
    split_ifs <;> simp [isLenErr]

/-- Witness for C6: empty `X` gives `std::length_error`, mismatched sizes
give `std::invalid_argument`. -/
theorem C6_backward_tensor_checks_witness :
    (([] : List ℚ) = [] ∧ [(1 : ℚ), 2] ≠ [] ∧ [(1 : ℚ), 2].length ≠ [(5 : ℚ)].length) ∧
    backward [] [(5 : ℚ)] 1 0 8 0 0 = .error (.lengthError "`X` is empty") ∧
    backward [(1 : ℚ), 2] [(5 : ℚ)] 1 0 8 0 0 =
      .error (.invalidArgument "`X` and `dY` are not the same size") :=
  ⟨⟨rfl, by simp, by decide⟩,
   (C6_backward_tensor_checks [] [(5 : ℚ)] 1 0 8 0 0 (by decide) (by decide)
      (le_refl 0) (le_refl 0)).1 rfl,
   (C6_backward_tensor_checks [(1 : ℚ), 2] [(5 : ℚ)] 1 0 8 0 0 (by decide) (by decide)
      (le_refl 0) (le_refl 0)).2.1 (by simp) (by decide)⟩

/-- Claim C7: on the active path with valid parameters, every forward output
element lies in `[(0 - zero_point) * scale, (2^num_bits - 1 - zero_point) * scale]`
(the code's clamp bound never exceeds `2^num_bits - 1`, so this holds even at
`num_bits = 32`). -/
theorem C7_output_range (X Y : List ℚ) (scale : ℚ) (zp nb qd it : ℤ)
    (hs : 0 < scale) (hzp : 0 ≤ zp) (h1 : 1 ≤ nb) (h2 : nb ≤ 32)
    (hqd : 0 ≤ qd) (hit : qd ≠ 0 → 0 ≤ it) (hact : qd = 0 ∨ qd < it)
    (hY : forward X scale zp nb qd it = .ok Y) :
    ∀ y ∈ Y, ((0 : ℚ) - zp) * scale ≤ y ∧ y ≤ ((2 : ℚ) ^ nb.toNat - 1 - zp) * scale := by
  rw [forward_eq_active X scale zp nb qd it h1 h2 hzp hqd hit hact] at hY
  injection hY with hY
  subst hY
  intro y hy
  simp only [List.mem_map] at hy
  obtain ⟨x, hx, rfl⟩ := hy
  rw [fakeQuantElem_eq_int]
  set c := min (quantMaxInt nb) (max 0 (roundHalfAway (x * (1 / scale) + zp))) with hc
  have hc0 : (0 : ℤ) ≤ c := le_min (quantMaxInt_nonneg nb h1 h2) (le_max_left _ _)
  have hcu : c ≤ 2 ^ nb.toNat - 1 :=
    le_trans (min_le_left _ _) (quantMaxInt_le_pow nb h1 h2)
  have hcq0 : (0 : ℚ) ≤ (c : ℚ) := by exact_mod_cast hc0
  have hcqu : (c : ℚ) ≤ (2 : ℚ) ^ nb.toNat - 1 := by exact_mod_cast hcu
  constructor
  · exact mul_le_mul_of_nonneg_right (by linarith) hs.le
  · exact mul_le_mul_of_nonneg_right (by linarith) hs.le

/-- Witness for C7 at the saturating input `X = [1000000]`, `scale = 1`,
`zero_point = 0`, `num_bits = 8`. -/
theorem C7_output_range_witness :
    ((0 : ℚ) < 1 ∧ (1 : ℤ) ≤ 8 ∧ (8 : ℤ) ≤ 32 ∧
      forward [(1000000 : ℚ)] 1 0 8 0 0 = .ok [255]) ∧
    ∀ y ∈ [(255 : ℚ)],
      ((0 : ℚ) - (0 : ℤ)) * 1 ≤ y ∧ y ≤ ((2 : ℚ) ^ (8 : ℤ).toNat - 1 - (0 : ℤ)) * 1 :=
  ⟨⟨by norm_num, by decide, by decide, by
      norm_num [forward, fakeQuantElem, roundHalfAway, quantMaxOf,
        show quantMaxInt 8 = 255 from by decide]⟩,
   C7_output_range [(1000000 : ℚ)] [(255 : ℚ)] 1 0 8 0 0 (by norm_num) (le_refl 0)
     (by decide) (by decide) (le_refl 0) (fun _ => le_refl 0) (Or.inl rfl)
     (by norm_num [forward, fakeQuantElem, roundHalfAway, quantMaxOf,
        show quantMaxInt 8 = 255 from by decide])⟩

/-- Grid points with clamp-range coordinates are fixed points of the forward
per-element kernel. -/
lemma fakeQuantElem_fixed (scale : ℚ) (zp nb c : ℤ) (hs : scale ≠ 0)
    (hc0 : 0 ≤ c) (hcm : c ≤ quantMaxInt nb) :
    fakeQuantElem scale zp nb (((c : ℚ) - (zp : ℚ)) * scale) =
      ((c : ℚ) - (zp : ℚ)) * scale := by
  rw [fakeQuantElem_eq_int]
  have harg : ((c : ℚ) - (zp : ℚ)) * scale * (1 / scale) + (zp : ℚ) = (c : ℚ) := by
    field_simp
  rw [harg, roundHalfAway_intCast, max_eq_right hc0, min_eq_right hcm]

/-- The forward per-element kernel is idempotent whenever `scale ≠ 0` and the
clamp bound is non-negative. -/
lemma fakeQuantElem_idem (scale : ℚ) (zp nb : ℤ) (hs : scale ≠ 0)
    (hqm : 0 ≤ quantMaxInt nb) (x : ℚ) :
    fakeQuantElem scale zp nb (fakeQuantElem scale zp nb x) = fakeQuantElem scale zp nb x := by
  calc fakeQuantElem scale zp nb (fakeQuantElem scale zp nb x)
      = fakeQuantElem scale zp nb
          (((min (quantMaxInt nb) (max 0 (roundHalfAway (x * (1 / scale) + zp))) : ℤ) -
            (zp : ℚ)) * scale) := by
        rw [fakeQuantElem_eq_int scale zp nb x]
    _ = (((min (quantMaxInt nb) (max 0 (roundHalfAway (x * (1 / scale) + zp))) : ℤ) -
            (zp : ℚ)) * scale) :=
        fakeQuantElem_fixed scale zp nb _ hs
          (le_min hqm (le_max_left _ _)) (min_le_left _ _)
    _ = fakeQuantElem scale zp nb x := (fakeQuantElem_eq_int scale zp nb x).symm

/-- Claim C8: applying forward twice with the same parameters equals applying
it once; with every element of `X` on the quantization grid
`x = (k - zero_point) * scale`, `k ∈ [0, 2^num_bits - 1]`, we have
`forward (forward X) = forward X`. -/
theorem C8_forward_idempotent (X : List ℚ) (scale : ℚ) (zp nb : ℤ)
    (hs : 0 < scale) (hzp : 0 ≤ zp) (h1 : 1 ≤ nb) (h2 : nb ≤ 32)
    (hgrid : ∀ x ∈ X, ∃ k : ℤ, 0 ≤ k ∧ (k : ℚ) ≤ 2 ^ nb.toNat - 1 ∧
      x = ((k : ℚ) - zp) * scale) :
    (forward X scale zp nb 0 0).bind (fun Y => forward Y scale zp nb 0 0) =
      forward X scale zp nb 0 0 := by
  have hact := forward_eq_active X scale zp nb 0 0 h1 h2 hzp le_rfl
    (fun h => absurd rfl h) (Or.inl rfl)
  rw [hact]
  have hbind : (Except.ok (X.map (fakeQuantElem scale zp nb)) :
      Except KError (List ℚ)).bind (fun Y => forward Y scale zp nb 0 0) =
      forward (X.map (fakeQuantElem scale zp nb)) scale zp nb 0 0 := rfl
  rw [hbind, forward_eq_active (X.map (fakeQuantElem scale zp nb)) scale zp nb 0 0 h1 h2
    hzp le_rfl (fun h => absurd rfl h) (Or.inl rfl)]
  rw [List.map_map]
  congr 1
  exact List.map_congr_left
    (fun x _ => fakeQuantElem_idem scale zp nb hs.ne' (quantMaxInt_nonneg nb h1 h2) x)

/-- Witness for C8 on the grid tensor `X = [0, 1, 255]` for `scale = 1`,
`zero_point = 0`, `num_bits = 8`. -/
theorem C8_forward_idempotent_witness :
    ((0 : ℚ) < 1 ∧ (1 : ℤ) ≤ 8 ∧ (8 : ℤ) ≤ 32 ∧
      (∀ x ∈ [(0 : ℚ), 1, 255], ∃ k : ℤ, 0 ≤ k ∧ (k : ℚ) ≤ 2 ^ (8 : ℤ).toNat - 1 ∧
        x = ((k : ℚ) - (0 : ℤ)) * 1)) ∧
    (forward [(0 : ℚ), 1, 255] 1 0 8 0 0).bind (fun Y => forward Y 1 0 8 0 0) =
      forward [(0 : ℚ), 1, 255] 1 0 8 0 0 := by
  have hg : ∀ x ∈ [(0 : ℚ), 1, 255], ∃ k : ℤ, 0 ≤ k ∧
      (k : ℚ) ≤ 2 ^ (8 : ℤ).toNat - 1 ∧ x = ((k : ℚ) - (0 : ℤ)) * 1 := by
    intro x hx
    simp only [List.mem_cons, List.not_mem_nil, or_false] at hx
    rcases hx with rfl | rfl | rfl
    · exact ⟨0, le_refl 0, by norm_num [show ((8 : ℤ)).toNat = 8 from rfl], by norm_num⟩
    · exact ⟨1, by decide, by norm_num [show ((8 : ℤ)).toNat = 8 from rfl], by norm_num⟩
    · exact ⟨255, by decide, by norm_num [show ((8 : ℤ)).toNat = 8 from rfl], by norm_num⟩
  exact ⟨⟨by norm_num, by decide, by decide, hg⟩,
    C8_forward_idempotent [(0 : ℚ), 1, 255] 1 0 8 (by norm_num) (le_refl 0)
      (by decide) (by decide) hg⟩

/-- Claim C9: `scale` is never validated: with all other parameters valid,
any `scale` whatsoever — zero and negative values included — makes both
kernels return normally. -/
theorem C9_scale_never_validated (X dY : List ℚ) (scale : ℚ) (zp nb qd it : ℤ)
    (h1 : 1 ≤ nb) (h2 : nb ≤ 32) (hzp : 0 ≤ zp) (hqd : 0 ≤ qd)
    (hit : qd ≠ 0 → 0 ≤ it) (hlen : X.length = dY.length) (hne : X ≠ []) :
    (∃ Y, forward X scale zp nb qd it = .ok Y) ∧
    (∃ dX, backward X dY scale zp nb qd it = .ok dX) := by
  by_cases hact : 0 < qd ∧ it ≤ qd
  · exact ⟨⟨X, forward_eq_passthrough X scale zp nb qd it h1 h2 hzp hact.1
        (hit (by omega)) hact.2⟩,
      ⟨dY, backward_eq_passthrough X dY scale zp nb qd it h1 h2 hzp hlen hne hact.1
        (hit (by omega)) hact.2⟩⟩
  · have hor : qd = 0 ∨ qd < it := by
      rcases eq_or_lt_of_le hqd with h | h
      · exact Or.inl h.symm
      · exact Or.inr (by omega)
    exact ⟨⟨_, forward_eq_active X scale zp nb qd it h1 h2 hzp hqd hit hor⟩,
      ⟨_, backward_eq_active X dY scale zp nb qd it h1 h2 hzp hqd hlen hne hit hor⟩⟩

/-- Witness for C9 at `scale = 0` and `scale = -1`. -/
theorem C9_scale_never_validated_witness :
    ((1 : ℤ) ≤ 8 ∧ (8 : ℤ) ≤ 32 ∧ [(3 : ℚ)].length = [(7 : ℚ)].length ∧ [(3 : ℚ)] ≠ []) ∧
    ((∃ Y, forward [(3 : ℚ)] 0 0 8 0 0 = .ok Y) ∧
      (∃ dX, backward [(3 : ℚ)] [(7 : ℚ)] 0 0 8 0 0 = .ok dX)) ∧
    ((∃ Y, forward [(3 : ℚ)] (-1) 0 8 0 0 = .ok Y) ∧
      (∃ dX, backward [(3 : ℚ)] [(7 : ℚ)] (-1) 0 8 0 0 = .ok dX)) :=
  ⟨⟨by decide, by decide, rfl, by simp⟩,
   C9_scale_never_validated [(3 : ℚ)] [(7 : ℚ)] 0 0 8 0 0 (by decide) (by decide)
     (le_refl 0) (le_refl 0) (fun _ => le_refl 0) rfl (by simp),
   C9_scale_never_validated [(3 : ℚ)] [(7 : ℚ)] (-1) 0 8 0 0 (by decide) (by decide)
     (le_refl 0) (le_refl 0) (fun _ => le_refl 0) rfl (by simp)⟩

end FakeQuant
